import Mathlib

/-!
Verification development for the Pixeldrainer uploader (src/main.py).

The range-aware download engine `download_to_ram` and the surrounding
command-line flow `main` are embedded shallowly.  Network interaction is
modelled by an oracle: a finite list of `Event`s, one per HTTP GET the
loop issues, describing the status, the streamed body blocks and whether
a transient network failure interrupts the stream.  Running out of oracle
events while the loop still wants to retry is reported as a distinct
outcome (the real program would keep retrying).
-/

namespace Pixeldrainer

/-- Truthiness of an optional string, matching Python: `None` and the
empty string are falsy, every other string is truthy. -/
def truthy (o : Option String) : Bool :=
  match o with
  | none => false
  | some s => s != ""

/-- Surrounding-whitespace strip, as Python `int` applies to its string
argument.  (`Char.isWhitespace` covers space, tab, CR and LF; the rarer
ASCII vertical-tab and form-feed and the unicode spaces Python also
strips are not modelled.) -/
def trimChars (l : List Char) : List Char :=
  ((l.dropWhile Char.isWhitespace).reverse.dropWhile Char.isWhitespace).reverse

/-- Worker for Python `str.split(sep)` with a non-empty separator:
scan left to right, cutting at each non-overlapping occurrence of
`sep`.  `fuel` bounds the recursion; the callers pass the input length,
which the scan never exceeds since every step consumes at least one
character. -/
def pySplitGo (sep : List Char) : Nat → List Char → List Char → List (List Char)
  | _, [], acc => [acc.reverse]
  | 0, l, acc => [acc.reverse ++ l]
  | fuel + 1, c :: rest, acc =>
    if sep.isPrefixOf (c :: rest) then
      acc.reverse :: pySplitGo sep fuel ((c :: rest).drop sep.length) []
    else
      pySplitGo sep fuel rest (c :: acc)

/-- Python `s.split(sep)` for a non-empty separator, over the strings'
character lists. -/
def pySplit (sep : String) (s : String) : List (List Char) :=
  pySplitGo sep.data s.data.length s.data []

/-- Python `pat in s` for a non-empty `pat`: the split has more than
one part exactly when the pattern occurs. -/
def pyContains (s pat : String) : Bool :=
  1 < (pySplit pat s).length

/-- Python `int(s)` on a string, as a partial function: strip
surrounding whitespace, optional single sign, then at least one decimal
digit.  `none` models an unhandled `ValueError`.  (Numeric-literal
underscores, a rarely used Python extension, are not modelled.) -/
def pyIntParse (s : String) : Option Int :=
  let t := trimChars s.data
  let signed : Int × List Char :=
    match t with
    | '-' :: r => (-1, r)
    | '+' :: r => (1, r)
    | r => (1, r)
  if signed.2 ≠ [] ∧ signed.2.all Char.isDigit then
    some (signed.1 *
      (signed.2.foldl (fun acc c => acc * 10 + (c.toNat - 48)) 0 : Nat))
  else none

/-- Line 39: `total_size = int(response.headers.get('content-length', 0))`.
Absent header gives `int(0) = 0`; a present but unparsable value makes
`int` raise an unhandled `ValueError`, modelled as `none`. -/
def extractTotalSize (contentLength : Option String) : Option Int :=
  match contentLength with
  | none => some 0
  | some s => pyIntParse s

/-- Python `str.strip('"')`: remove every leading and trailing `"` char. -/
def stripQuoteChars (l : List Char) : List Char :=
  ((l.dropWhile (fun c => c = '"')).reverse.dropWhile (fun c => c = '"')).reverse

/-- Lines 40-46: filename from the `Content-Disposition` header.  A
missing or empty (falsy) header falls back to `"Unnamed"`; otherwise
`content_disposition.split('filename=')[1].strip('"')`, where indexing
`[1]` raises an unhandled `IndexError` (modelled as `none`) when
`filename=` does not occur in the header value. -/
def extractFileName (contentDisposition : Option String) : Option String :=
  match contentDisposition with
  | none => some "Unnamed"
  | some s =>
    if s = "" then some "Unnamed"
    else
      match pySplit "filename=" s with
      | _ :: second :: _ => some (String.mk (stripQuoteChars second))
      | _ => none

/-- Headers returned by the initial HEAD request (line 36). -/
structure ProbeHeaders where
  contentLength : Option String
  contentDisposition : Option String
deriving DecidableEq, Repr

/-- One oracle answer to a GET issued by the download loop.
`resp st blocks streamFail`: the request yielded a response with HTTP
status `st`; if the body is streamed, `blocks` are the chunks
`iter_content` delivers, and `streamFail` says a transient
`RequestException` interrupts the stream right after those chunks.
`netErr`: the request itself raised a transient `RequestException`
(connection reset, timeout, DNS failure) before any response. -/
inductive Event where
  | resp (status : Nat) (blocks : List (List Nat)) (streamFail : Bool)
  | netErr
deriving DecidableEq, Repr

/-- A request the loop issued, as observed on the wire: either a ranged
GET with header `Range: bytes=start-stop` (line 54: `start` is the
current `downloaded_size`, `stop` the declared `total_size`), or the
non-ranged fallback GET of line 69. -/
inductive Req where
  | ranged (start : Nat) (stop : Int)
  | full
deriving DecidableEq, Repr

/-- Terminal state of the download loop: `done` when the `while` exits
(condition false, or `break` after a completed fallback download);
`outOfEvents` when the oracle list is exhausted while the loop would
issue another request (the real loop retries without bound). -/
inductive DlResult where
  | done (buffer : List Nat) (downloaded : Nat)
  | outOfEvents (buffer : List Nat) (downloaded : Nat)
deriving DecidableEq, Repr

/-- Buffer content held in `file_in_ram` at the end of the loop. -/
def DlResult.buffer : DlResult → List Nat
  | .done b _ => b
  | .outOfEvents b _ => b

/-- Final value of the `downloaded_size` counter. -/
def DlResult.bytes : DlResult → Nat
  | .done _ d => d
  | .outOfEvents _ d => d

/-- Whether the loop actually terminated. -/
def DlResult.isDone : DlResult → Bool
  | .done _ _ => true
  | .outOfEvents _ _ => false

/-- Full observable outcome of the download loop: the requests issued in
order, the number of oracle events consumed, and the terminal state.
`trace` and `consumed` are ghost observers; they do not influence the
computation. -/
structure LoopOut where
  trace : List Req
  consumed : Nat
  result : DlResult
deriving DecidableEq, Repr

/-- Lines 52-83, the `while downloaded_size < total_size` loop.

Per iteration: a ranged GET is issued (line 55).  `raise_for_status`
(line 56) raises `HTTPError` on any status at least 400; `HTTPError` is
a subclass of `RequestException`, so the handler at line 78 catches it
and the loop retries with unchanged state (`continue`).  A 206 response
streams its blocks into the buffer, advancing `downloaded_size` per
block; a transient failure mid-stream is likewise caught at line 78, so
already-streamed blocks stay and the loop retries.  Any other status
below 400 takes the fallback (lines 64-76): the buffer is truncated to
empty, a non-ranged GET is issued, its body streamed, and on completion
the loop `break`s; a failed fallback request or stream is again caught
at line 78 and retried from the top, with the buffer already truncated
and `downloaded_size` never reset.  The catch-all handler at line 81
(`sys.exit(1)`) is unreachable for the modelled exception sources, which
are all `RequestException`s. -/
def dlLoop (total : Int) (evs : List Event) (buf : List Nat) (dl : Nat) : LoopOut :=
  if (dl : Int) < total then
    match evs with
    | [] => ⟨[], 0, DlResult.outOfEvents buf dl⟩
    | Event.netErr :: rest =>
      let o := dlLoop total rest buf dl
      ⟨Req.ranged dl total :: o.trace, o.consumed + 1, o.result⟩
    | Event.resp st blocks _ :: rest =>
      if 400 ≤ st then
        let o := dlLoop total rest buf dl
        ⟨Req.ranged dl total :: o.trace, o.consumed + 1, o.result⟩
      else if st = 206 then
        let o := dlLoop total rest (buf ++ blocks.flatten)
          (dl + (blocks.map List.length).sum)
        ⟨Req.ranged dl total :: o.trace, o.consumed + 1, o.result⟩
      else
        match rest with
        | [] => ⟨[Req.ranged dl total], 1, DlResult.outOfEvents [] dl⟩
        | Event.netErr :: rest2 =>
          let o := dlLoop total rest2 [] dl
          ⟨Req.ranged dl total :: Req.full :: o.trace, o.consumed + 2, o.result⟩
        | Event.resp st2 blocks2 sf2 :: rest2 =>
          if 400 ≤ st2 then
            let o := dlLoop total rest2 [] dl
            ⟨Req.ranged dl total :: Req.full :: o.trace, o.consumed + 2, o.result⟩
          else if sf2 then
            let o := dlLoop total rest2 blocks2.flatten
              (dl + (blocks2.map List.length).sum)
            ⟨Req.ranged dl total :: Req.full :: o.trace, o.consumed + 2, o.result⟩
          else
            ⟨[Req.ranged dl total, Req.full], 2,
              DlResult.done blocks2.flatten (dl + (blocks2.map List.length).sum)⟩
  else ⟨[], 0, DlResult.done buf dl⟩
termination_by structural evs

/-- Outcome of `download_to_ram`: normal return (line 87), an unhandled
exception while reading the probe headers (`ValueError` from `int`,
`IndexError` from the filename split), or oracle exhaustion inside the
retry loop. -/
inductive DownloadOutcome where
  | success (filename : String) (out : LoopOut)
  | outOfEvents (filename : String) (out : LoopOut)
  | crash
deriving DecidableEq, Repr

/-- Lines 23-87: `download_to_ram`, with the HEAD response's headers and
the GET oracle as explicit inputs. -/
def download_to_ram (h : ProbeHeaders) (evs : List Event) : DownloadOutcome :=
  match extractTotalSize h.contentLength with
  | none => DownloadOutcome.crash
  | some total =>
    match extractFileName h.contentDisposition with
    | none => DownloadOutcome.crash
    | some name =>
      let o := dlLoop total evs [] 0
      match o.result with
      | DlResult.done _ _ => DownloadOutcome.success name o
      | DlResult.outOfEvents _ _ => DownloadOutcome.outOfEvents name o

/-- Whether a response makes the loop take the fallback full-download
branch at lines 64-76: a status below 400 (`raise_for_status` does not
raise) that is not 206 (not partial content). -/
def isFallbackTrigger : Event → Bool
  | Event.resp st _ _ => decide (st < 400) && decide (st ≠ 206)
  | Event.netErr => false

/-- Blocks a single oracle event streams into the buffer along the
partial-content path: only a 206 response streams there. -/
def eventBlocks : Event → List (List Nat)
  | Event.resp st bs _ => if st = 206 then bs else []
  | Event.netErr => []

/-- Bytes a single oracle event streams on the partial-content path. -/
def eventBytes (e : Event) : List Nat := (eventBlocks e).flatten

/-- All blocks streamed on the partial-content path over a run, in
delivery order. -/
def blocks206 (evs : List Event) : List (List Nat) :=
  (evs.map eventBlocks).flatten

/-- Byte-for-byte, in-order concatenation of those blocks. -/
def streamedBytes (evs : List Event) : List Nat :=
  (evs.map eventBytes).flatten

/-- Command-line arguments as parsed at lines 242-250.  Optional string
arguments default to `None` in argparse; `store_credential` is a
store-true flag. -/
structure Args where
  source : String
  name : Option String
  username : Option String
  apikey : Option String
  store_credential : Bool
deriving DecidableEq, Repr

/-- Line 258: `args.source.startswith(('http://', 'https://'))`. -/
def isUrl (s : String) : Bool :=
  "http://".data.isPrefixOf s.data || "https://".data.isPrefixOf s.data

/-- Line 271: `os.path.basename(args.source)` for slash-separated paths. -/
def basename (p : String) : String :=
  String.mk ((pySplit "/" p).getLastD [])

/-- Result of `get_upload_properties`: either the resolved
`(filename, username, apikey)` triple or `sys.exit(1)`. -/
inductive CredResult where
  | ok (filename username apikey : String)
  | exitFail
deriving DecidableEq, Repr

/-- Lines 156-187: `get_upload_properties`, with the `.env` values that
`load_dotenv` makes visible to `os.getenv` passed explicitly.  Python
truthiness governs every check, so empty strings count as absent. -/
def get_upload_properties (args : Args) (envUser envKey : Option String)
    (default_file_name : String) : CredResult :=
  if !(truthy args.username) && !(truthy args.apikey) then
    if !(truthy envUser) || !(truthy envKey) then CredResult.exitFail
    else
      CredResult.ok
        (if truthy args.name then args.name.getD "" else default_file_name)
        (envUser.getD "") (envKey.getD "")
  else if !(truthy args.username) || !(truthy args.apikey) then CredResult.exitFail
  else
    CredResult.ok
      (if truthy args.name then args.name.getD "" else default_file_name)
      (args.username.getD "") (args.apikey.getD "")

/-- The JSON body of the upload endpoint's reply, as consumed by
`display_upload_result`: a `success` flag, the file `id` used to build
links, and an error `message`. -/
structure UploadResult where
  success : Bool
  id : String
  message : String
deriving DecidableEq, Repr

/-- Oracle for the upload POST: either `raise_for_status` raises an
`HTTPError`, or a JSON reply is returned. -/
inductive UploadResp where
  | httpError
  | ok (r : UploadResult)
deriving DecidableEq, Repr

/-- The three human-readable links printed at lines 217-227. -/
def resultLinks (fid : String) : List String :=
  [ "https://pixeldrain.com/u/" ++ fid,
    "https://pixeldrain.com/api/file/" ++ fid ++ "?download",
    "https://pd.cybar.xyz/" ++ fid ]

/-- Lines 208-231: `display_upload_result`.  `some links` is the
successful print; `none` models `sys.exit(1)` on a reply whose
`success` field is falsy. -/
def display_upload_result (r : UploadResult) : Option (List String) :=
  if r.success then some (resultLinks r.id) else none

/-- How `main` ends: normal return (exit status 0) with the printed
links, `sys.exit(1)`, an unhandled exception (also a non-zero process
exit, but not via `sys.exit`), or oracle exhaustion inside the
download retry loop (the real process would still be running). -/
inductive MainOutcome where
  | exitSuccess (links : List String)
  | exitFailure
  | crash
  | stuck
deriving DecidableEq, Repr

/-- Observable end state of `main`: the outcome plus the credential pair
written to the `.env` store, `none` when `store_credentials` never ran. -/
structure MainRet where
  outcome : MainOutcome
  envWritten : Option (String × String)
deriving DecidableEq, Repr

/-- Environment a run of `main` interacts with: `.env` credentials,
the HEAD probe's headers and GET oracle for a URL source, whether a
local-path source exists on disk, and the upload endpoint's reply. -/
structure MainEnv where
  envUser : Option String
  envKey : Option String
  probe : ProbeHeaders
  events : List Event
  fileExists : Bool
  upload : UploadResp
deriving DecidableEq, Repr

/-- Lines 276-282: display the result, then store credentials when the
`--store-credential` flag is set and the reply reports success. -/
def afterUpload (args : Args) (u k : String) (r : UploadResult) : MainRet :=
  match display_upload_result r with
  | none => ⟨MainOutcome.exitFailure, none⟩
  | some links =>
    if args.store_credential && r.success then
      ⟨MainOutcome.exitSuccess links, some (u, k)⟩
    else
      ⟨MainOutcome.exitSuccess links, none⟩

/-- Lines 234-282: `main`.  URL sources go through `download_to_ram`,
then `get_upload_properties`, then `upload_from_ram` (whose
`raise_for_status` at line 111 is not inside any handler, so an HTTP
error crashes the process).  Other sources resolve credentials first,
then `upload_local_file`, where a missing file or an HTTP error is
caught at lines 144-149 and exits with status 1. -/
def pdMain (args : Args) (env : MainEnv) : MainRet :=
  if isUrl args.source then
    match download_to_ram env.probe env.events with
    | DownloadOutcome.crash => ⟨MainOutcome.crash, none⟩
    | DownloadOutcome.outOfEvents _ _ => ⟨MainOutcome.stuck, none⟩
    | DownloadOutcome.success name _ =>
      match get_upload_properties args env.envUser env.envKey name with
      | CredResult.exitFail => ⟨MainOutcome.exitFailure, none⟩
      | CredResult.ok _ u k =>
        match env.upload with
        | UploadResp.httpError => ⟨MainOutcome.crash, none⟩
        | UploadResp.ok r => afterUpload args u k r
  else
    match get_upload_properties args env.envUser env.envKey (basename args.source) with
    | CredResult.exitFail => ⟨MainOutcome.exitFailure, none⟩
    | CredResult.ok _ u k =>
      if env.fileExists then
        match env.upload with
        | UploadResp.httpError => ⟨MainOutcome.exitFailure, none⟩
        | UploadResp.ok r => afterUpload args u k r
      else ⟨MainOutcome.exitFailure, none⟩

/-! ### Step lemmas for the download loop -/

theorem dlLoop_stop {total : Int} {dl : Nat} (evs : List Event) (buf : List Nat)
    (h : ¬ (dl : Int) < total) :
    dlLoop total evs buf dl = ⟨[], 0, DlResult.done buf dl⟩ := by
  conv_lhs => rw [dlLoop.eq_def]
  simp [h]

theorem dlLoop_nil {total : Int} {dl : Nat} (buf : List Nat)
    (h : (dl : Int) < total) :
    dlLoop total [] buf dl = ⟨[], 0, DlResult.outOfEvents buf dl⟩ := by
  conv_lhs => rw [dlLoop.eq_def]
  simp [h]

theorem dlLoop_netErr {total : Int} {dl : Nat} (rest : List Event) (buf : List Nat)
    (h : (dl : Int) < total) :
    dlLoop total (Event.netErr :: rest) buf dl =
      ⟨Req.ranged dl total :: (dlLoop total rest buf dl).trace,
        (dlLoop total rest buf dl).consumed + 1,
        (dlLoop total rest buf dl).result⟩ := by
  conv_lhs => rw [dlLoop.eq_def]
  simp [h]

theorem dlLoop_httpErr {total : Int} {dl st : Nat} {bs : List (List Nat)} {sf : Bool}
    (rest : List Event) (buf : List Nat)
    (h : (dl : Int) < total) (h4 : 400 ≤ st) :
    dlLoop total (Event.resp st bs sf :: rest) buf dl =
      ⟨Req.ranged dl total :: (dlLoop total rest buf dl).trace,
        (dlLoop total rest buf dl).consumed + 1,
        (dlLoop total rest buf dl).result⟩ := by
  conv_lhs => rw [dlLoop.eq_def]
  simp [h, h4]

theorem dlLoop_on206 {total : Int} {dl : Nat} {bs : List (List Nat)} {sf : Bool}
    (rest : List Event) (buf : List Nat)
    (h : (dl : Int) < total) :
    dlLoop total (Event.resp 206 bs sf :: rest) buf dl =
      ⟨Req.ranged dl total ::
          (dlLoop total rest (buf ++ bs.flatten) (dl + (bs.map List.length).sum)).trace,
        (dlLoop total rest (buf ++ bs.flatten) (dl + (bs.map List.length).sum)).consumed + 1,
        (dlLoop total rest (buf ++ bs.flatten) (dl + (bs.map List.length).sum)).result⟩ := by
  conv_lhs => rw [dlLoop.eq_def]
  simp [h]

/-! ### Streamed-block bookkeeping -/

theorem streamedBytes_cons (e : Event) (l : List Event) :
    streamedBytes (e :: l) = eventBytes e ++ streamedBytes l := by
  simp [streamedBytes]

theorem eventBytes_netErr : eventBytes Event.netErr = [] := rfl

theorem eventBytes_not206 {st : Nat} {bs : List (List Nat)} {sf : Bool}
    (h : st ≠ 206) : eventBytes (Event.resp st bs sf) = [] := by
  simp [eventBytes, eventBlocks, h]

theorem eventBytes_on206 (bs : List (List Nat)) (sf : Bool) :
    eventBytes (Event.resp 206 bs sf) = bs.flatten := by
  simp [eventBytes, eventBlocks]

theorem blocks206_flatten (l : List Event) :
    (blocks206 l).flatten = streamedBytes l := by
  induction l with
  | nil => rfl
  | cons e rest ih =>
    simp [blocks206, streamedBytes, eventBytes] at *
    exact ih

theorem range_succ_map {α : Type} (k : Nat) (g : Nat → α) :
    (List.range (k + 1)).map g = g 0 :: (List.range k).map (fun i => g (i + 1)) := by
  rw [List.range_succ_eq_map, List.map_cons, List.map_map]
  rfl

/-- Master characterization of the loop on runs in which no response
triggers the full-download fallback: the loop consumes some prefix of
the oracle, the buffer grows by exactly the in-order concatenation of
the 206-streamed blocks of that prefix, `downloaded_size` advances by
exactly the buffer growth, every request is a ranged GET whose start
offset is the counter value at issue time, termination implies the
counter reached the declared total, and non-termination means the
oracle was exhausted. -/
theorem dlLoop_noFallback (total : Int) (evs : List Event) (buf : List Nat) (dl : Nat)
    (hnf : ∀ e ∈ evs, isFallbackTrigger e = false) :
    (dlLoop total evs buf dl).consumed ≤ evs.length ∧
    ((dlLoop total evs buf dl).result).buffer
      = buf ++ streamedBytes (evs.take (dlLoop total evs buf dl).consumed) ∧
    ((dlLoop total evs buf dl).result).bytes
      = dl + (streamedBytes (evs.take (dlLoop total evs buf dl).consumed)).length ∧
    (dlLoop total evs buf dl).trace
      = (List.range (dlLoop total evs buf dl).consumed).map
          (fun i => Req.ranged (dl + (streamedBytes (evs.take i)).length) total) ∧
    (((dlLoop total evs buf dl).result).isDone = true →
      total ≤ (((dlLoop total evs buf dl).result).bytes : Int)) ∧
    (((dlLoop total evs buf dl).result).isDone = false →
      (dlLoop total evs buf dl).consumed = evs.length) := by
  induction evs generalizing buf dl with
  | nil =>
    by_cases hdl : (dl : Int) < total
    · rw [dlLoop_nil buf hdl]
      simp [streamedBytes, DlResult.buffer, DlResult.bytes, DlResult.isDone]
    · rw [dlLoop_stop [] buf hdl]
      simp [streamedBytes, DlResult.buffer, DlResult.bytes, DlResult.isDone]
      omega
  | cons e rest ih =>
    by_cases hdl : (dl : Int) < total
    · have hnfr : ∀ x ∈ rest, isFallbackTrigger x = false :=
        fun x hx => hnf x (List.mem_cons_of_mem e hx)
      have hnfe : isFallbackTrigger e = false := hnf e (List.mem_cons_self e rest)
      cases e with
      | netErr =>
        rw [dlLoop_netErr rest buf hdl]
        obtain ⟨ih1, ih2, ih3, ih4, ih5, ih6⟩ := ih buf dl hnfr
        refine ⟨by simpa using ih1, ?_, ?_, ?_, ih5, by simpa using ih6⟩
        · simpa [streamedBytes_cons, eventBytes_netErr] using ih2
        · simpa [streamedBytes_cons, eventBytes_netErr] using ih3
        · rw [range_succ_map]
          simp only [List.take_succ_cons, List.take_zero,
            streamedBytes_cons, eventBytes_netErr, List.nil_append]
          refine congrArg₂ _ (by simp [streamedBytes]) ?_
          rw [ih4]
      | resp st bs sf =>
        by_cases h4 : 400 ≤ st
        · have h206 : st ≠ 206 := by omega
          rw [dlLoop_httpErr rest buf hdl h4]
          obtain ⟨ih1, ih2, ih3, ih4, ih5, ih6⟩ := ih buf dl hnfr
          refine ⟨by simpa using ih1, ?_, ?_, ?_, ih5, by simpa using ih6⟩
          · simpa [streamedBytes_cons, eventBytes_not206 h206] using ih2
          · simpa [streamedBytes_cons, eventBytes_not206 h206] using ih3
          · rw [range_succ_map]
            simp only [List.take_succ_cons, List.take_zero,
              streamedBytes_cons, eventBytes_not206 h206, List.nil_append]
            refine congrArg₂ _ (by simp [streamedBytes]) ?_
            rw [ih4]
        · have h206 : st = 206 := by
            by_contra hne
            simp [isFallbackTrigger, hne] at hnfe
            omega
          subst h206
          rw [dlLoop_on206 rest buf hdl]
          obtain ⟨ih1, ih2, ih3, ih4, ih5, ih6⟩ :=
            ih (buf ++ bs.flatten) (dl + (bs.map List.length).sum) hnfr
          have hlen : bs.flatten.length = (bs.map List.length).sum :=
            List.length_flatten bs
          refine ⟨by simpa using ih1, ?_, ?_, ?_, ih5, by simpa using ih6⟩
          · simpa [streamedBytes_cons, eventBytes_on206, List.append_assoc] using ih2
          · rw [ih3]
            simp [streamedBytes_cons, eventBytes_on206, hlen]
            omega
          · rw [range_succ_map]
            simp only [List.take_succ_cons, List.take_zero,
              streamedBytes_cons, eventBytes_on206]
            refine congrArg₂ _ (by simp [streamedBytes]) ?_
            rw [ih4]
            refine List.map_congr_left fun i _ => ?_
            simp [hlen]
            omega
    · rw [dlLoop_stop (e :: rest) buf hdl]
      simp [streamedBytes, DlResult.buffer, DlResult.bytes, DlResult.isDone]
      omega

theorem streamedBytes_append (a b : List Event) :
    streamedBytes (a ++ b) = streamedBytes a ++ streamedBytes b := by
  simp [streamedBytes]

theorem streamedBytes_take_le (evs : List Event) (j : Nat) :
    (streamedBytes (evs.take j)).length ≤ (streamedBytes evs).length := by
  conv_rhs => rw [← List.take_append_drop j evs]
  rw [streamedBytes_append, List.length_append]
  exact Nat.le_add_right _ _

/-! ### Claim theorems -/

/-- Claim C1, counterexample: the first ranged GET returns HTTP 403, yet
the engine does not fail: `raise_for_status`'s `HTTPError` is a
`RequestException`, so the handler at line 78 catches it and retries.
Here the retry (a second ranged request appears in the trace) gets a 206
and the download returns successfully — not a fatal error with zero
retries as the claim states. -/
theorem c1_counterexample :
    download_to_ram ⟨some "1", none⟩
        [Event.resp 403 [] false, Event.resp 206 [[7]] false] =
      DownloadOutcome.success "Unnamed"
        ⟨[Req.ranged 0 1, Req.ranged 0 1], 2, DlResult.done [7] 1⟩ := by
  decide

/-- Claim C1 (amended): a ranged GET answered with any 4xx/5xx status is
treated like a transient failure: the `HTTPError` raised by
`raise_for_status` is caught by the `RequestException` handler and the
loop retries with buffer and byte counter unchanged, indefinitely; the
engine never surfaces a fatal error for an HTTP error status. -/
theorem c1_amended (total : Int) (st : Nat) (bs : List (List Nat)) (sf : Bool)
    (rest : List Event) (buf : List Nat) (dl : Nat)
    (h4 : 400 ≤ st) (hdl : (dl : Int) < total) :
    (dlLoop total (Event.resp st bs sf :: rest) buf dl).result
        = (dlLoop total rest buf dl).result ∧
    (dlLoop total (Event.resp st bs sf :: rest) buf dl).trace
        = Req.ranged dl total :: (dlLoop total rest buf dl).trace := by
  rw [dlLoop_httpErr rest buf hdl h4]
  exact ⟨rfl, rfl⟩

/-- Witness for the amended C1 at a concrete input: a 403 answer is
consumed and the run continues exactly as the run without it. -/
theorem c1_amended_witness :
    (dlLoop 1 [Event.resp 403 [] false, Event.resp 206 [[7]] false] [] 0).result
        = (dlLoop 1 [Event.resp 206 [[7]] false] [] 0).result ∧
    (dlLoop 1 [Event.resp 403 [] false, Event.resp 206 [[7]] false] [] 0).trace
        = Req.ranged 0 1 :: (dlLoop 1 [Event.resp 206 [[7]] false] [] 0).trace :=
  c1_amended 1 403 [] false [Event.resp 206 [[7]] false] [] 0 (by decide) (by decide)

/-- Claim C2: when the metadata probe carries no length header the
declared total is 0, the `while downloaded_size < total_size` loop at
line 52 is never entered, and `download_to_ram` silently returns a
successful result with an empty buffer — no GET request is even issued,
whatever the server could have served.  This contradicts the claim that
a run returning without raising holds the complete resource. -/
theorem c2_zero_total_returns_empty (evs : List Event) :
    download_to_ram ⟨none, none⟩ evs =
      DownloadOutcome.success "Unnamed" ⟨[], 0, DlResult.done [] 0⟩ := by
  have h : dlLoop 0 evs [] 0 = ⟨[], 0, DlResult.done [] 0⟩ :=
    dlLoop_stop evs [] (by decide)
  simp [download_to_ram, extractTotalSize, extractFileName, h]

/-- Claim C3: on every run in which no response triggers the
full-content fallback (all answers are 206, HTTP errors, or transient
network failures), the final buffer is the byte-for-byte in-order
concatenation of all streamed blocks — no reordering, gaps or
duplication — `downloaded_size` never moves past successfully written
data (it always equals the buffer length), and every request is a
ranged GET whose start offset is exactly the number of bytes already
confirmed when it was issued. -/
theorem c3_partial_transfer_concatenation (total : Int) (evs : List Event)
    (hnf : ∀ e ∈ evs, isFallbackTrigger e = false) :
    ((dlLoop total evs [] 0).result).buffer
        = (blocks206 (evs.take (dlLoop total evs [] 0).consumed)).flatten ∧
    ((dlLoop total evs [] 0).result).bytes
        = (((dlLoop total evs [] 0).result).buffer).length ∧
    (dlLoop total evs [] 0).trace
        = (List.range (dlLoop total evs [] 0).consumed).map
            (fun i => Req.ranged ((streamedBytes (evs.take i)).length) total) := by
  obtain ⟨h1, h2, h3, h4, h5, h6⟩ := dlLoop_noFallback total evs [] 0 hnf
  refine ⟨?_, ?_, ?_⟩
  · rw [h2, blocks206_flatten]
    simp
  · rw [h2, h3]
    simp
  · rw [h4]
    simp

/-- Witness for C3 at a concrete input with a mid-stream transient
failure and a request-level network error. -/
theorem c3_witness :
    ((dlLoop 3 [Event.resp 206 [[1, 2]] true, Event.netErr,
        Event.resp 206 [[3]] false] [] 0).result).buffer
        = (blocks206 ([Event.resp 206 [[1, 2]] true, Event.netErr,
            Event.resp 206 [[3]] false].take
            (dlLoop 3 [Event.resp 206 [[1, 2]] true, Event.netErr,
              Event.resp 206 [[3]] false] [] 0).consumed)).flatten ∧
    ((dlLoop 3 [Event.resp 206 [[1, 2]] true, Event.netErr,
        Event.resp 206 [[3]] false] [] 0).result).bytes
        = (((dlLoop 3 [Event.resp 206 [[1, 2]] true, Event.netErr,
            Event.resp 206 [[3]] false] [] 0).result).buffer).length ∧
    (dlLoop 3 [Event.resp 206 [[1, 2]] true, Event.netErr,
        Event.resp 206 [[3]] false] [] 0).trace
        = (List.range (dlLoop 3 [Event.resp 206 [[1, 2]] true, Event.netErr,
            Event.resp 206 [[3]] false] [] 0).consumed).map
            (fun i => Req.ranged ((streamedBytes ([Event.resp 206 [[1, 2]] true,
              Event.netErr, Event.resp 206 [[3]] false].take i)).length) 3) :=
  c3_partial_transfer_concatenation 3
    [Event.resp 206 [[1, 2]] true, Event.netErr, Event.resp 206 [[3]] false]
    (by decide)

/-- Claim C4: when a ranged GET is answered with a below-400 status
other than 206 and the ensuing non-ranged GET succeeds, the engine
truncates the buffer, issues exactly one fallback full-body GET (the
trace holds exactly one `Req.full`, and nothing after it), streams its
body entirely, and `break`s out of the loop: the final buffer is
exactly the fresh full-body response, with no residue of the partial
content `buf` written before. -/
theorem c4_fallback_single_full_get (total : Int) (st st2 : Nat)
    (bs bs2 : List (List Nat)) (sf : Bool) (rest : List Event)
    (buf : List Nat) (dl : Nat)
    (hdl : (dl : Int) < total) (h1 : st < 400) (h2 : st ≠ 206) (h3 : st2 < 400) :
    dlLoop total (Event.resp st bs sf :: Event.resp st2 bs2 false :: rest) buf dl =
      ⟨[Req.ranged dl total, Req.full], 2,
        DlResult.done bs2.flatten (dl + (bs2.map List.length).sum)⟩ := by
  conv_lhs => rw [dlLoop.eq_def]
  simp [hdl, h2, Nat.not_le.mpr h1, Nat.not_le.mpr h3]

/-- Witness for C4: a server that ignores the range request; partially
written content `[9]` is discarded and the buffer ends up exactly the
500-equivalent fresh body. -/
theorem c4_witness :
    dlLoop 5 [Event.resp 200 [] false, Event.resp 200 [[1, 2, 3, 4, 5]] false] [9] 1 =
      ⟨[Req.ranged 1 5, Req.full], 2, DlResult.done [1, 2, 3, 4, 5] 6⟩ :=
  c4_fallback_single_full_get 5 200 200 [] [[1, 2, 3, 4, 5]] false [] [9] 1
    (by decide) (by decide) (by decide) (by decide)

/-- Claim C5, counterexample: declared total 2; a 206 delivers one byte
and fails, the next ranged GET is answered 200, and the fallback body
of 2 bytes is streamed.  The run returns successfully with the correct
2-byte buffer, but `downloaded_size` ends at 3, not 2: the counter is
not reset when the fallback truncates the buffer. -/
theorem c5_counterexample :
    download_to_ram ⟨some "2", none⟩
        [Event.resp 206 [[9]] true, Event.resp 200 [] false,
          Event.resp 200 [[1], [2]] false] =
      DownloadOutcome.success "Unnamed"
        ⟨[Req.ranged 0 2, Req.ranged 1 2, Req.full], 3, DlResult.done [1, 2] 3⟩ ∧
    (3 : Nat) ≠ 2 :=
  ⟨by decide, by decide⟩

/-- Claim C5 (amended): round-trip completeness holds for every
successful run that stays on the partial-content path: if no response
triggers the fallback, the oracle never streams more than the declared
total, and the loop terminates, then `downloaded_size` equals the
declared total on return.  When a fallback runs after partial progress,
the counter can instead exceed the total (see the counterexample),
though the buffer itself is the full-body response. -/
theorem c5_amended (total : Int) (evs : List Event)
    (_h0 : 0 < total)
    (hnf : ∀ e ∈ evs, isFallbackTrigger e = false)
    (hbd : ((streamedBytes evs).length : Int) ≤ total)
    (hdone : ((dlLoop total evs [] 0).result).isDone = true) :
    ((((dlLoop total evs [] 0).result).bytes : Int)) = total := by
  obtain ⟨h1, h2, h3, h4, h5, h6⟩ := dlLoop_noFallback total evs [] 0 hnf
  have hmono := streamedBytes_take_le evs (dlLoop total evs [] 0).consumed
  have hge := h5 hdone
  rw [h3] at hge ⊢
  push_cast at hge hbd ⊢
  omega

/-- Witness for the amended C5: a two-block transfer with a transient
failure in between completes with `downloaded_size = 2 = total`. -/
theorem c5_amended_witness :
    ((((dlLoop 2 [Event.resp 206 [[4]] true, Event.resp 206 [[5]] false]
        [] 0).result).bytes : Int)) = 2 :=
  c5_amended 2 [Event.resp 206 [[4]] true, Event.resp 206 [[5]] false]
    (by decide) (by decide) (by decide) (by decide)

/-- Claim C6, counterexample: declared total 3; one byte arrives via
206, then the server answers 200 and the 3-byte fallback body is
streamed.  After the last fallback block is written `downloaded_size`
is 4 > 3: the invariant `bytes_downloaded ≤ declared_total` is broken
because the counter is not reset when the buffer is truncated. -/
theorem c6_counterexample :
    download_to_ram ⟨some "3", none⟩
        [Event.resp 206 [[5]] true, Event.resp 200 [] false,
          Event.resp 200 [[6, 7], [8]] false] =
      DownloadOutcome.success "Unnamed"
        ⟨[Req.ranged 0 3, Req.ranged 1 3, Req.full], 3,
          DlResult.done [6, 7, 8] 4⟩ ∧
    ¬ ((4 : Nat) ≤ 3) :=
  ⟨by decide, by decide⟩

/-- Claim C6 (amended): on the partial-content path the invariant does
hold: if no response triggers the fallback and the oracle never streams
more than the declared total, then after any number `m` of processed
responses `downloaded_size` is at most the declared total and equals
the buffer length — so per-block progress updates (which report exactly
the counter) never exceed the total.  A fallback can break the bound on
the counter, as the counterexample shows. -/
theorem c6_amended (total : Int) (evs : List Event)
    (hnf : ∀ e ∈ evs, isFallbackTrigger e = false)
    (hbd : ((streamedBytes evs).length : Int) ≤ total) (m : Nat) :
    ((((dlLoop total (evs.take m) [] 0).result).bytes : Int)) ≤ total ∧
    (((dlLoop total (evs.take m) [] 0).result).bytes)
      = ((((dlLoop total (evs.take m) [] 0).result).buffer)).length := by
  have hnfm : ∀ e ∈ evs.take m, isFallbackTrigger e = false :=
    fun e he => hnf e (List.take_subset m evs he)
  obtain ⟨h1, h2, h3, h4, h5, h6⟩ := dlLoop_noFallback total (evs.take m) [] 0 hnfm
  refine ⟨?_, ?_⟩
  · rw [h3]
    have t1 := streamedBytes_take_le (evs.take m)
      (dlLoop total (evs.take m) [] 0).consumed
    have t2 := streamedBytes_take_le evs m
    push_cast at hbd ⊢
    omega
  · rw [h2, h3]
    simp

/-- Witness for the amended C6 at a concrete input, after one processed
response of a two-response oracle. -/
theorem c6_amended_witness :
    ((((dlLoop 2 (List.take 1 [Event.resp 206 [[4]] true, Event.resp 206 [[5]] false])
        [] 0).result).bytes : Int)) ≤ 2 ∧
    ((dlLoop 2 (List.take 1 [Event.resp 206 [[4]] true, Event.resp 206 [[5]] false])
        [] 0).result).bytes
      = ((((dlLoop 2 (List.take 1 [Event.resp 206 [[4]] true,
          Event.resp 206 [[5]] false]) [] 0).result).buffer)).length :=
  c6_amended 2 [Event.resp 206 [[4]] true, Event.resp 206 [[5]] false]
    (by decide) (by decide) 1

/-- Claim C7, counterexample: a present but non-numeric length header
does not yield a declared total of 0 — `int('abc')` raises an unhandled
`ValueError` and `download_to_ram` crashes before any request. -/
theorem c7_counterexample :
    extractTotalSize (some "abc") ≠ some 0 ∧
    download_to_ram ⟨some "abc", none⟩ [] = DownloadOutcome.crash :=
  ⟨by decide, by decide⟩

/-- Claim C7 (amended): the declared total is 0 when the length header
is absent, but a present non-numeric value raises an unhandled
`ValueError` (the probe crashes instead of treating it as 0); the
filename defaults to `"Unnamed"` whenever no Content-Disposition
header is present. -/
theorem c7_amended :
    extractTotalSize none = some 0 ∧
    extractFileName none = some "Unnamed" ∧
    (∀ (s : String) (evs : List Event), pyIntParse s = none →
      extractTotalSize (some s) = none ∧
      download_to_ram ⟨some s, none⟩ evs = DownloadOutcome.crash) := by
  refine ⟨rfl, rfl, fun s evs h => ?_⟩
  have hts : extractTotalSize (some s) = none := h
  exact ⟨hts, by simp [download_to_ram, hts]⟩

/-- Witness for the amended C7 at the concrete unparsable header value
`abc`: the declared total is not 0 and the probe crashes. -/
theorem c7_amended_witness :
    extractTotalSize none = some 0 ∧
    extractFileName none = some "Unnamed" ∧
    (extractTotalSize (some "abc") = none ∧
      download_to_ram ⟨some "abc", none⟩ [] = DownloadOutcome.crash) :=
  ⟨c7_amended.1, c7_amended.2.1, c7_amended.2.2 "abc" [] (by decide)⟩

/-- Whether the upload endpoint's reply reported success. -/
def uploadReportedSuccess : UploadResp → Bool
  | UploadResp.ok r => r.success
  | UploadResp.httpError => false

/-- Claim C8: every listed fatal condition makes the process exit with
a non-zero status — missing credentials (local or URL source), local
file not found, the upload reply reporting failure — and a successful
upload makes `main` print the three human-readable links and return,
exiting zero. -/
theorem c8_exit_behavior :
    (∀ args env, isUrl args.source = false →
      get_upload_properties args env.envUser env.envKey (basename args.source)
          = CredResult.exitFail →
      (pdMain args env).outcome = MainOutcome.exitFailure) ∧
    (∀ args env name out, isUrl args.source = true →
      download_to_ram env.probe env.events = DownloadOutcome.success name out →
      get_upload_properties args env.envUser env.envKey name = CredResult.exitFail →
      (pdMain args env).outcome = MainOutcome.exitFailure) ∧
    (∀ args env fn u k, isUrl args.source = false → env.fileExists = false →
      get_upload_properties args env.envUser env.envKey (basename args.source)
          = CredResult.ok fn u k →
      (pdMain args env).outcome = MainOutcome.exitFailure) ∧
    (∀ args env fn u k r, isUrl args.source = false → env.fileExists = true →
      get_upload_properties args env.envUser env.envKey (basename args.source)
          = CredResult.ok fn u k →
      env.upload = UploadResp.ok r → r.success = false →
      (pdMain args env).outcome = MainOutcome.exitFailure) ∧
    (∀ args env name out fn u k r, isUrl args.source = true →
      download_to_ram env.probe env.events = DownloadOutcome.success name out →
      get_upload_properties args env.envUser env.envKey name = CredResult.ok fn u k →
      env.upload = UploadResp.ok r → r.success = false →
      (pdMain args env).outcome = MainOutcome.exitFailure) ∧
    (∀ args env fn u k r, isUrl args.source = false → env.fileExists = true →
      get_upload_properties args env.envUser env.envKey (basename args.source)
          = CredResult.ok fn u k →
      env.upload = UploadResp.ok r → r.success = true →
      (pdMain args env).outcome = MainOutcome.exitSuccess (resultLinks r.id)) ∧
    (∀ args env name out fn u k r, isUrl args.source = true →
      download_to_ram env.probe env.events = DownloadOutcome.success name out →
      get_upload_properties args env.envUser env.envKey name = CredResult.ok fn u k →
      env.upload = UploadResp.ok r → r.success = true →
      (pdMain args env).outcome = MainOutcome.exitSuccess (resultLinks r.id)) := by
  refine ⟨?_, ?_, ?_, ?_, ?_, ?_, ?_⟩
  · intro args env hurl hcred
    simp [pdMain, hurl, hcred]
  · intro args env name out hurl hdl hcred
    simp [pdMain, hurl, hdl, hcred]
  · intro args env fn u k hurl hfe hcred
    simp [pdMain, hurl, hfe, hcred]
  · intro args env fn u k r hurl hfe hcred hup hsucc
    simp [pdMain, hurl, hfe, hcred, hup, afterUpload, display_upload_result, hsucc]
  · intro args env name out fn u k r hurl hdl hcred hup hsucc
    simp [pdMain, hurl, hdl, hcred, hup, afterUpload, display_upload_result, hsucc]
  · intro args env fn u k r hurl hfe hcred hup hsucc
    cases hsc : args.store_credential <;>
      simp [pdMain, hurl, hfe, hcred, hup, afterUpload, display_upload_result,
        hsucc, hsc]
  · intro args env name out fn u k r hurl hdl hcred hup hsucc
    cases hsc : args.store_credential <;>
      simp [pdMain, hurl, hdl, hcred, hup, afterUpload, display_upload_result,
        hsucc, hsc]

/-- Witness for C8: each conjunct exercised at a concrete run — missing
credentials for a local and a URL source, a missing local file, a
failed upload on both paths, and a successful upload on both paths. -/
theorem c8_witness :
    (pdMain ⟨"f.txt", none, none, none, false⟩
      ⟨none, none, ⟨none, none⟩, [], true,
        UploadResp.ok ⟨true, "X", ""⟩⟩).outcome = MainOutcome.exitFailure ∧
    (pdMain ⟨"http://a/b", none, none, none, false⟩
      ⟨none, none, ⟨none, none⟩, [], true,
        UploadResp.ok ⟨true, "X", ""⟩⟩).outcome = MainOutcome.exitFailure ∧
    (pdMain ⟨"f.txt", none, some "u", some "k", false⟩
      ⟨none, none, ⟨none, none⟩, [], false,
        UploadResp.ok ⟨true, "X", ""⟩⟩).outcome = MainOutcome.exitFailure ∧
    (pdMain ⟨"f.txt", none, some "u", some "k", false⟩
      ⟨none, none, ⟨none, none⟩, [], true,
        UploadResp.ok ⟨false, "", "err"⟩⟩).outcome = MainOutcome.exitFailure ∧
    (pdMain ⟨"http://a/b", none, some "u", some "k", false⟩
      ⟨none, none, ⟨none, none⟩, [], true,
        UploadResp.ok ⟨false, "", "err"⟩⟩).outcome = MainOutcome.exitFailure ∧
    (pdMain ⟨"f.txt", none, some "u", some "k", false⟩
      ⟨none, none, ⟨none, none⟩, [], true,
        UploadResp.ok ⟨true, "ID", ""⟩⟩).outcome
      = MainOutcome.exitSuccess (resultLinks "ID") ∧
    (pdMain ⟨"http://a/b", none, some "u", some "k", false⟩
      ⟨none, none, ⟨none, none⟩, [], true,
        UploadResp.ok ⟨true, "ID", ""⟩⟩).outcome
      = MainOutcome.exitSuccess (resultLinks "ID") := by
  obtain ⟨h1, h2, h3, h4, h5, h6, h7⟩ := c8_exit_behavior
  refine ⟨h1 _ _ (by decide) (by decide),
    h2 _ _ "Unnamed" ⟨[], 0, DlResult.done [] 0⟩ (by decide) (by decide) (by decide),
    h3 _ _ "f.txt" "u" "k" (by decide) (by decide) (by decide),
    h4 _ _ "f.txt" "u" "k" ⟨false, "", "err"⟩ (by decide) (by decide) (by decide)
      (by decide) (by decide),
    h5 _ _ "Unnamed" ⟨[], 0, DlResult.done [] 0⟩ "Unnamed" "u" "k" ⟨false, "", "err"⟩
      (by decide) (by decide) (by decide) (by decide) (by decide),
    h6 _ _ "f.txt" "u" "k" ⟨true, "ID", ""⟩ (by decide) (by decide) (by decide)
      (by decide) (by decide),
    h7 _ _ "Unnamed" ⟨[], 0, DlResult.done [] 0⟩ "Unnamed" "u" "k" ⟨true, "ID", ""⟩
      (by decide) (by decide) (by decide) (by decide) (by decide)⟩

/-- Claim C9, counterexample: an empty Content-Disposition header value
does not contain `filename=`, yet no exception is raised — the empty
string is falsy in Python, so line 43 falls back to `"Unnamed"` and the
probe completes normally. -/
theorem c9_counterexample :
    pyContains "" "filename=" = false ∧
    extractFileName (some "") = some "Unnamed" ∧
    download_to_ram ⟨none, some ""⟩ [] =
      DownloadOutcome.success "Unnamed" ⟨[], 0, DlResult.done [] 0⟩ := by
  refine ⟨by decide, by decide, ?_⟩
  have h : dlLoop 0 [] [] 0 = ⟨[], 0, DlResult.done [] 0⟩ :=
    dlLoop_stop [] [] (by decide)
  simp [download_to_ram, extractTotalSize, h, show extractFileName (some "")
    = some "Unnamed" by decide]

/-- Claim C9 (amended): if the probe's Content-Disposition value is
non-empty and does not contain the substring `filename=`, the split at
line 44 yields a single-element list and the `[1]` indexing raises an
unhandled `IndexError`: `download_to_ram` crashes instead of falling
back to `"Unnamed"`.  (An empty header value is falsy and does fall
back; see the counterexample.) -/
theorem c9_amended (s : String) (evs : List Event)
    (hne : s ≠ "") (hno : pyContains s "filename=" = false) :
    extractFileName (some s) = none ∧
    download_to_ram ⟨none, some s⟩ evs = DownloadOutcome.crash := by
  have hlen : ¬ 1 < (pySplit "filename=" s).length := by
    simpa [pyContains] using hno
  have hfn : extractFileName (some s) = none := by
    simp only [extractFileName, if_neg hne]
    rcases h : pySplit "filename=" s with _ | ⟨a, _ | ⟨b, t⟩⟩
    · rfl
    · rfl
    · rw [h] at hlen
      simp at hlen
  refine ⟨hfn, ?_⟩
  simp [download_to_ram, extractTotalSize, hfn]

/-- Witness for the amended C9: the header value `attachment` crashes
the probe. -/
theorem c9_amended_witness :
    extractFileName (some "attachment") = none ∧
    download_to_ram ⟨none, some "attachment"⟩ [Event.netErr] =
      DownloadOutcome.crash :=
  c9_amended "attachment" [Event.netErr] (by decide) (by decide)

/-- Claim C10: the `.env` credential store is written only when the
`--store-credential` flag was given and the upload reply reported
success (line 281); on every other run — upload failed, flag absent, or
an earlier fatal exit — nothing is written. -/
theorem c10_store_only_on_flagged_success (args : Args) (env : MainEnv)
    (u k : String) (h : (pdMain args env).envWritten = some (u, k)) :
    args.store_credential = true ∧ uploadReportedSuccess env.upload = true := by
  unfold pdMain afterUpload display_upload_result at h
  repeat' split at h
  all_goals simp_all [uploadReportedSuccess]

/-- Witness for C10: a flagged, successful upload writes the resolved
credentials, and the theorem recovers flag and success from that. -/
theorem c10_witness :
    Args.store_credential ⟨"http://a", none, some "u", some "k", true⟩ = true ∧
    uploadReportedSuccess (UploadResp.ok ⟨true, "X", ""⟩) = true :=
  c10_store_only_on_flagged_success
    ⟨"http://a", none, some "u", some "k", true⟩
    ⟨none, none, ⟨none, none⟩, [], true, UploadResp.ok ⟨true, "X", ""⟩⟩
    "u" "k" (by decide)

end Pixeldrainer
